import Mathlib

/-!
# Verification of the samplingfdw caching engine

A shallow embedding of the `samplingfdw` package: a foreign data wrapper
(`SamplingFdw`) that mirrors part of a remote Postgres table in a local
table, routing reads and writes through a pluggable `SamplingStrategy`.

Scalar values are modelled as strings (the engine treats remote values as
opaque), a row is an ordered association list from column name to an
optional scalar (`none` models SQL NULL / Python `None`), and a table is a
list of rows.  The store-access primitives of `sampling_strategy.py`
(`execute_fetch_statement`, `execute_insert_statement`,
`execute_update_statement`, `execute_delete_statement`) are embedded both
as statement builders (the structured content of the SQL text they
produce) and as their effect on a table together with the `rowcount`
they report.
-/

namespace SamplingFdwModel

/-- Opaque scalar value of the engine (column values are passed through). -/
abbrev Value := String

/-- A row: ordered mapping from column name to optional scalar;
`none` models SQL NULL. -/
abbrev Row := List (String × Option Value)

/-- A values mapping as passed to insert/update/delete
(Python `Dict[str, Any]`, values possibly `None`). -/
abbrev Values := List (String × Option Value)

/-- A qualifier `(column, operator, value)`, as in `multicorn.Qual`;
`Qual.__eq__` compares the three fields, which `DecidableEq` mirrors. -/
structure Qual where
  column : String
  op : String
  value : Value
deriving DecidableEq, Repr

/-- Looking a column up in a row: a missing column and a NULL column both
yield `none` (neither satisfies an SQL equality against a literal). -/
def rowLookup (r : Row) (c : String) : Option Value :=
  match r.find? (fun kv => kv.1 = c) with
  | none => none
  | some kv => kv.2

/-- SQL semantics of one conjunct `col = %s` of a WHERE clause built from a
values mapping: a parameter bound to `None` renders `col = NULL`, which is
never true. -/
def condMatches (r : Row) (cond : String × Option Value) : Bool :=
  match cond.2 with
  | none => false
  | some w => rowLookup r cond.1 = some w

/-- A row satisfies the AND of all conjuncts built from a values mapping. -/
def rowMatchesValues (conds : Values) (r : Row) : Bool :=
  conds.all (condMatches r)

/-- SQL semantics of an equality qualifier against a row.  The engine only
ever builds equality qualifiers (`selection_quals` and the scenarios of the
spec); other operators are delegated to the store and not modelled. -/
def evalQual (r : Row) (q : Qual) : Bool :=
  match q.op with
  | "=" => rowLookup r q.column = some q.value
  | _ => false

/-- A row satisfies the AND of a qualifier list (the WHERE clause of
`execute_fetch_statement` joins qualifiers with AND). -/
def rowMatchesQuals (quals : List Qual) (r : Row) : Bool :=
  quals.all (evalQual r)

/-- Projection of a row onto a column list:
`dict(zip(columns, result))` in the source. -/
def projectRow (columns : List String) (r : Row) : Row :=
  columns.map (fun c => (c, rowLookup r c))

/-- Structured content of the SELECT statement built by
`SamplingStrategy.execute_fetch_statement`: the select clause, the table
in the FROM clause, and the WHERE conjuncts.  The qualifier position is a
list of strings because the source interpolates `str(qual)` for each
element it is handed. -/
structure FetchStatement where
  selectClause : String
  fromClause : String
  whereConjuncts : List String
deriving DecidableEq, Repr

/-- The string form of a `multicorn.Qual`, `column operator value`. -/
def qualToStr (q : Qual) : String :=
  q.column ++ " " ++ q.op ++ " " ++ q.value

/-- `", ".join(...)` on a list of strings. -/
def joinComma : List String → String
  | [] => ""
  | [s] => s
  | s :: rest => s ++ ", " ++ joinComma rest

/-- `str` of a Python list of already-rendered elements, `[a, b, ...]`. -/
def pyListStr (elems : List String) : String :=
  "[" ++ joinComma elems ++ "]"

/-- `SamplingStrategy.execute_fetch_statement` as a statement builder:
`SELECT columns-or-* FROM table_name [WHERE qual AND ...]`. -/
def execute_fetch_statement (tableName : String) (qualStrs : List String)
    (columns : List String) : FetchStatement :=
  { selectClause := if columns.isEmpty then "*" else joinComma columns
    fromClause := tableName
    whereConjuncts := qualStrs }

/-- Effect of executing a fetch statement with qualifiers `quals` and a
column list on a table: the matching rows projected onto the columns, in
table order (what iterating the cursor afterwards yields). -/
def fetchRows (table : List Row) (quals : List Qual)
    (columns : List String) : List Row :=
  (table.filter (rowMatchesQuals quals)).map (projectRow columns)

/-- Effect of a fetch with `columns = None` (`SELECT *`), as in `on_open`:
the matching rows, unprojected. -/
def fetchRowsAll (table : List Row) (quals : List Qual) : List Row :=
  table.filter (rowMatchesQuals quals)

/-- Structured content of the INSERT statement built by
`SamplingStrategy.execute_insert_statement`: the target table, the column
list, and the bound parameters.  The source iterates the values mapping
and keeps only the keys whose value `is not None`, in all three of the
column list, the placeholder list and the parameter list. -/
structure InsertStatement where
  table : String
  columns : List String
  params : List (Option Value)
deriving DecidableEq, Repr

/-- `SamplingStrategy.execute_insert_statement` as a statement builder. -/
def execute_insert_statement_stmt (tableName : String)
    (values : Values) : InsertStatement :=
  { table := tableName
    columns := (values.filter (fun kv => kv.2.isSome)).map (fun kv => kv.1)
    params := (values.filter (fun kv => kv.2.isSome)).map (fun kv => kv.2) }

/-- Effect of `execute_insert_statement` on a table, with the `rowcount`
it returns: one row holding exactly the non-None columns is appended
(a single-row INSERT reports rowcount 1). -/
def execute_insert_statement (table : List Row) (values : Values) :
    List Row × Int :=
  (table ++ [values.filter (fun kv => kv.2.isSome)], 1)

/-- `UPDATE t SET new... WHERE old...` applied to one row: every column
named in `newvalues` is set to its new (possibly NULL) value. -/
def setFields (newvalues : Values) (r : Row) : Row :=
  r.map (fun kv =>
    match newvalues.find? (fun nv => nv.1 = kv.1) with
    | some nv => (kv.1, nv.2)
    | none => kv)

/-- Effect of `SamplingStrategy.execute_update_statement` on a table, with
the `rowcount` it returns: rows matching all of `oldvalues` are updated in
place with `newvalues`; rowcount is the number of rows matched. -/
def execute_update_statement (table : List Row)
    (oldvalues newvalues : Values) : List Row × Int :=
  (table.map (fun r =>
      if rowMatchesValues oldvalues r then setFields newvalues r else r),
   ((table.filter (rowMatchesValues oldvalues)).length : Int))

/-- Effect of `SamplingStrategy.execute_delete_statement` on a table, with
the `rowcount` it returns: rows matching all of `oldvalues` are removed;
rowcount is the number of rows removed. -/
def execute_delete_statement (table : List Row) (oldvalues : Values) :
    List Row × Int :=
  (table.filter (fun r => !rowMatchesValues oldvalues r),
   ((table.filter (rowMatchesValues oldvalues)).length : Int))

/-- `SamplingStrategy.get_count`: `SELECT COUNT(*)` on the table. -/
def get_count (table : List Row) : Nat :=
  table.length

/-- Logging levels of `multicorn.utils.log_to_postgres`.  A log at `error`
level raises inside Postgres and aborts the current statement; `info` (the
default when no level argument is passed) and `warning` only report. -/
inductive LogLevel where
  | info
  | warning
  | error
deriving DecidableEq, Repr

/-- Configuration of `SelectionSamplingStrategy`: the remote table name
and the option bag entries the strategy reads (`column`, `column_values`,
optional `primary_key`). -/
structure SelectionSamplingStrategy where
  table_name : String
  column : String
  column_values : String
  primary_key : Option String
deriving DecidableEq, Repr

/-- Python's `str.split(",")` on the character list: splitting at every
comma, an empty string yields one empty field. -/
def splitCommaChars : List Char → List (List Char)
  | [] => [[]]
  | c :: rest =>
    match splitCommaChars rest, decEq c ',' with
    | groups, isTrue _ => [] :: groups
    | [], isFalse _ => [[c]]
    | g :: gs, isFalse _ => (c :: g) :: gs

/-- Python's `str.split(",")`. -/
def splitComma (s : String) : List String :=
  (splitCommaChars s.data).map (fun cs => String.mk cs)

namespace SelectionSamplingStrategy

/-- `self.options["column_values"].split(",")`. -/
def columnValues (s : SelectionSamplingStrategy) : List String :=
  splitComma s.column_values

/-- `self.local_table_name = "_local_" + self.table_name` (set in
`on_open`). -/
def local_table_name (s : SelectionSamplingStrategy) : String :=
  "_local_" ++ s.table_name

/-- `self.selection_quals`: one equality qualifier per configured value. -/
def selection_quals (s : SelectionSamplingStrategy) : List Qual :=
  (s.columnValues).map (fun v => { column := s.column, op := "=", value := v })

/-- `values.get(self.options["column"], None) in column_values`: a row (or
values mapping) is mirror-eligible iff its value for the configured column
is one of the configured values (a missing or `None` value is
ineligible). -/
def eligible (s : SelectionSamplingStrategy) (values : Values) : Bool :=
  match rowLookup values s.column with
  | some v => (s.columnValues).contains v
  | none => false

/-- The local mirror: whether `table_exists` reports the derived local
table, and its rows. -/
structure LocalMirror where
  created : Bool
  rows : List Row
deriving DecidableEq, Repr

/-- `SelectionSamplingStrategy.on_open`: if the local table exists, return
its count; otherwise create it, fetch from remote with `selection_quals`
(joined with AND by `execute_fetch_statement`) and `columns = None`, bulk
insert the result, and return the count. -/
def on_open (s : SelectionSamplingStrategy) (remoteTable : List Row)
    (m : LocalMirror) : Nat × LocalMirror :=
  if m.created then
    (get_count m.rows, m)
  else
    let fetched := fetchRowsAll remoteTable (s.selection_quals)
    (get_count fetched, { created := true, rows := fetched })

/-- `SelectionSamplingStrategy.fetch_locally`.  In the source this is a
generator function (its body contains `yield`), so calling it returns a
generator object, never `None`: the result is therefore always `some`.
For each selection qualifier contained in the query's qualifiers the body
runs the fetch statement on the local table with the query's qualifiers
and yields every result row. -/
def fetch_locally (s : SelectionSamplingStrategy) (localRows : List Row)
    (quals : List Qual) (columns : List String) : Option (List Row) :=
  some ((s.selection_quals).flatMap (fun q =>
    if quals.contains q then fetchRows localRows quals columns else []))

/-- `SelectionSamplingStrategy.fetch_remotely`: runs the query's
qualifiers and columns against the remote table. -/
def fetch_remotely (s : SelectionSamplingStrategy) (remoteTable : List Row)
    (quals : List Qual) (columns : List String) : List Row :=
  fetchRows remoteTable quals columns

/-- The fetch statement `fetch_remotely` executes:
built over `self.table_name` with the caller's qualifiers and columns. -/
def fetch_remotely_stmt (s : SelectionSamplingStrategy) (quals : List Qual)
    (columns : List String) : FetchStatement :=
  execute_fetch_statement s.table_name (quals.map qualToStr) columns

/-- The message logged by `rowid_column` when `primary_key` is absent. -/
def primaryKeyMessage : String :=
  "You need to declare a primary_key option in order to use the write API"

/-- `SelectionSamplingStrategy.rowid_column`: reads the `primary_key`
option; if absent, calls `log_to_postgres` WITHOUT a level argument (so at
multicorn's default, non-aborting level) and returns the absent value.
Result: the log entries emitted and the value returned. -/
def rowid_column (s : SelectionSamplingStrategy) :
    List (String × LogLevel) × Option String :=
  match s.primary_key with
  | none => ([(primaryKeyMessage, LogLevel.info)], none)
  | some k => ([], some k)

/-- `SelectionSamplingStrategy.insert_locally`: insert into the local
table iff the values are eligible; returns the new local table and the
reported rowcount (0 when ineligible). -/
def insert_locally (s : SelectionSamplingStrategy) (localRows : List Row)
    (values : Values) : List Row × Int :=
  if s.eligible values then execute_insert_statement localRows values
  else (localRows, 0)

/-- The insert statement `insert_remotely` executes against the remote
table (it always runs, unconditionally). -/
def insert_remotely_stmt (s : SelectionSamplingStrategy) (values : Values) :
    InsertStatement :=
  execute_insert_statement_stmt s.table_name values

/-- The insert statement `insert_locally` executes against the local
table, when the values are eligible. -/
def insert_locally_stmt (s : SelectionSamplingStrategy) (values : Values) :
    Option InsertStatement :=
  if s.eligible values then
    some (execute_insert_statement_stmt s.local_table_name values)
  else none

/-- `SelectionSamplingStrategy.update_locally`, line for line: if the old
or the new values are eligible, run the update statement on the local
table (recording its rowcount as `rows_added`); then return 0 when both
are eligible, `-rows_added` when only the old values are eligible,
`rows_added` when only the new values are eligible, and 0 otherwise.
Result: the new local table and the returned delta. -/
def update_locally (s : SelectionSamplingStrategy) (localRows : List Row)
    (oldvalues newvalues : Values) : List Row × Int :=
  let oldEligible := s.eligible oldvalues
  let newEligible := s.eligible newvalues
  let updated :=
    if oldEligible || newEligible then
      execute_update_statement localRows oldvalues newvalues
    else (localRows, 0)
  let rows_added := updated.2
  if oldEligible && newEligible then (updated.1, 0)
  else if oldEligible then (updated.1, -rows_added)
  else if newEligible then (updated.1, rows_added)
  else (updated.1, 0)

/-- `SelectionSamplingStrategy.delete_locally`: delete from the local
table iff the old values are eligible; returns the new local table and
the reported rowcount (0 when ineligible). -/
def delete_locally (s : SelectionSamplingStrategy) (localRows : List Row)
    (oldvalues : Values) : List Row × Int :=
  if s.eligible oldvalues then execute_delete_statement localRows oldvalues
  else (localRows, 0)

end SelectionSamplingStrategy

/-- Configuration of `RemoteSamplingStrategy`: the remote table name and
the optional `primary_key` option. -/
structure RemoteSamplingStrategy where
  table_name : String
  primary_key : Option String
deriving DecidableEq, Repr

namespace RemoteSamplingStrategy

/-- `RemoteSamplingStrategy.fetch_remotely` calls the 5-parameter
staticmethod `execute_fetch_statement(cursor, table_name, quals, columns,
sortkeys)` with only `(remote_cursor, quals, columns, sortkeys)`, so every
argument shifts one position left: the qualifier list lands in the
`table_name` slot (interpolated via `str`, rendering as a Python list),
the column names land in the `quals` slot (each interpolated via `str`,
i.e. unchanged), and the sort keys land in the `columns` slot (empty in
practice, selecting `*`).  The statement below is built with exactly that
argument binding; `s.table_name` is never used. -/
def fetch_remotely_stmt (s : RemoteSamplingStrategy) (quals : List Qual)
    (columns : List String) (sortkeyStrs : List String) : FetchStatement :=
  execute_fetch_statement (pyListStr (quals.map qualToStr)) columns
    sortkeyStrs

/-- `RemoteSamplingStrategy.rowid_column`: identical to the selection
strategy's, including the missing level argument on the log call. -/
def rowid_column (s : RemoteSamplingStrategy) :
    List (String × LogLevel) × Option String :=
  match s.primary_key with
  | none => ([(SelectionSamplingStrategy.primaryKeyMessage, LogLevel.info)],
             none)
  | some k => ([], some k)

/-- `RemoteSamplingStrategy.insert_remotely` calls the 3-parameter
staticmethod `execute_insert_statement(cursor, table_name, values)` with
only `(remote_cursor, values)`: Python raises a `TypeError` for the
missing `values` argument before any statement is built, so no write ever
reaches the remote table. -/
def insert_remotely (s : RemoteSamplingStrategy) (values : Values) :
    Except String Values :=
  Except.error
    "TypeError: execute_insert_statement missing 1 required positional argument: values"

/-- `RemoteSamplingStrategy.update_remotely` calls the 4-parameter
staticmethod `execute_update_statement(cursor, table_name, oldvalues,
newvalues)` with only `(remote_cursor, oldvalues, newvalues)`: Python
raises a `TypeError` for the missing `newvalues` argument. -/
def update_remotely (s : RemoteSamplingStrategy)
    (oldvalues newvalues : Values) : Except String Values :=
  Except.error
    "TypeError: execute_update_statement missing 1 required positional argument: newvalues"

/-- `RemoteSamplingStrategy.delete_remotely` calls the 3-parameter
staticmethod `execute_delete_statement(cursor, table_name, oldvalues)`
with only `(remote_cursor, oldvalues)`: Python raises a `TypeError` for
the missing `oldvalues` argument. -/
def delete_remotely (s : RemoteSamplingStrategy) (oldvalues : Values) :
    Except String Unit :=
  Except.error
    "TypeError: execute_delete_statement missing 1 required positional argument: oldvalues"

end RemoteSamplingStrategy

/-- The orchestrator state a `SamplingFdw` owns for one configured mirror
with the selection strategy: the local mirror table and the
`rows_stored_locally` accumulator.  The remote side of each write is
applied afterwards to the remote store and returns the caller's values;
it touches neither the mirror nor the accumulator, so it is not part of
this state. -/
structure FdwState where
  localTable : List Row
  rows_stored_locally : Int
deriving DecidableEq, Repr

namespace SamplingFdw

/-- The accounting invariant of the spec: the accumulator equals the
number of rows currently present in the local mirror table. -/
def invariant (st : FdwState) : Prop :=
  st.rows_stored_locally = (st.localTable.length : Int)

instance (st : FdwState) : Decidable (invariant st) := by
  unfold invariant; infer_instance

/-- `SamplingFdw.insert`:
`self.rows_stored_locally += self.sampling_strategy.insert_locally(...)`
followed by the remote insert. -/
def insert (s : SelectionSamplingStrategy) (st : FdwState)
    (values : Values) : FdwState :=
  let r := s.insert_locally st.localTable values
  { localTable := r.1, rows_stored_locally := st.rows_stored_locally + r.2 }

/-- `SamplingFdw.update`:
`self.rows_stored_locally += self.sampling_strategy.update_locally(...)`
followed by the remote update. -/
def update (s : SelectionSamplingStrategy) (st : FdwState)
    (oldvalues newvalues : Values) : FdwState :=
  let r := s.update_locally st.localTable oldvalues newvalues
  { localTable := r.1, rows_stored_locally := st.rows_stored_locally + r.2 }

/-- `SamplingFdw.delete`:
`self.rows_stored_locally -= self.sampling_strategy.delete_locally(...)`
followed by the remote delete. -/
def delete (s : SelectionSamplingStrategy) (st : FdwState)
    (oldvalues : Values) : FdwState :=
  let r := s.delete_locally st.localTable oldvalues
  { localTable := r.1, rows_stored_locally := st.rows_stored_locally - r.2 }

end SamplingFdw

/-- A sampling strategy as the orchestrator's `execute` sees it (dynamic
dispatch on `self.sampling_strategy`): `fetch_locally` may decline with
`none`, `fetch_remotely` maps the remote table to the fetched rows, and
`store_results_locally` consumes the fetched rows and returns the new
local table with the reported number of rows added.  In the source the
base class's `store_results_locally` is total and returns 0; the
selection strategy inherits it. -/
structure Strategy where
  fetch_locally : List Row → List Qual → List String → Option (List Row)
  fetch_remotely : List Row → List Qual → List String → List Row
  store_results_locally : List Row → List Row → List Row × Int

/-- Read-path state of one orchestrator: the two tables, the accumulator,
and a count of physical remote fetches executed (each call to the
strategy's `fetch_remotely` runs exactly one statement on the remote
cursor). -/
structure ReadState where
  localTable : List Row
  remoteTable : List Row
  remoteFetchCount : Nat
  rows_stored_locally : Int

namespace SamplingFdw

/-- `SamplingFdw.execute`: query the local database first via the
strategy; if it returns a result (`is not None`), return it with no
remote call.  Otherwise run one remote fetch, duplicate the resulting
sequence with `itertools.tee` (both copies come from the single physical
fetch; duplicating a pure list needs no re-execution), hand one copy to
`store_results_locally`, add the returned delta to the accumulator, and
return the other copy to the caller. -/
def execute (strat : Strategy) (st : ReadState) (quals : List Qual)
    (columns : List String) : List Row × ReadState :=
  match strat.fetch_locally st.localTable quals columns with
  | some rows => (rows, st)
  | none =>
    let rows := strat.fetch_remotely st.remoteTable quals columns
    let stored := strat.store_results_locally st.localTable rows
    (rows,
     { localTable := stored.1
       remoteTable := st.remoteTable
       remoteFetchCount := st.remoteFetchCount + 1
       rows_stored_locally := st.rows_stored_locally + stored.2 })

/-- The read path of `SamplingFdw.execute` with a `store_results_locally`
step that may raise, embedded in the exception monad: the store call and
the `+=` sit inside a `with` block with no handler, so an exception rolls
the transaction back and propagates out of `execute`; the `+=` never
runs.  Result: the outcome the caller sees (rows or the propagated
exception) and the accumulator afterwards. -/
def executeFallibleStore (localAnswer : Option (List Row))
    (remoteRows : List Row) (store : List Row → Except String Int)
    (acc : Int) : Except String (List Row) × Int :=
  match localAnswer with
  | some rows => (Except.ok rows, acc)
  | none =>
    match store remoteRows with
    | Except.ok d => (Except.ok remoteRows, acc + d)
    | Except.error e => (Except.error e, acc)

end SamplingFdw

/-- The selection strategy, packaged the way `SamplingFdw.execute`
dispatches on it (`store_results_locally` is the inherited base-class
implementation, which ignores the rows and returns 0). -/
def SelectionSamplingStrategy.toStrategy (s : SelectionSamplingStrategy) :
    Strategy :=
  { fetch_locally := s.fetch_locally
    fetch_remotely := s.fetch_remotely
    store_results_locally := fun localTable _ => (localTable, 0) }

/-- A Python scalar as it appears in the metadata table's values
mappings: a string (`name`, `table_name`) or an integer
(`rows_stored_locally`). -/
inductive PyVal where
  | str (v : String)
  | int (v : Int)
deriving DecidableEq, Repr

/-- Lookup in a values mapping of Python scalars. -/
def lookupPy (m : List (String × PyVal)) (k : String) : Option PyVal :=
  match m.find? (fun kv => kv.1 = k) with
  | none => none
  | some kv => some kv.2

/-- Python dict assignment `m[k] = v`: replace the existing entry or
append a new one. -/
def setPy (m : List (String × PyVal)) (k : String) (v : PyVal) :
    List (String × PyVal) :=
  if (m.find? (fun kv => kv.1 = k)).isSome then
    m.map (fun kv => if kv.1 = k then (k, v) else kv)
  else m ++ [(k, v)]

/-- One entry of `SamplingFdw.registry` as `MetadataFdw.update` uses it:
the live accumulator and the strategy's `fetch_more_rows` callback
(old count → new count → resulting exact count). -/
structure FdwEntry where
  rows_stored_locally : Int
  fetch_more_rows : Int → Int → Int

namespace MetadataFdw

/-- The message logged at ERROR level (hence raised) when a field other
than `rows_stored_locally` is modified. -/
def readOnlyFieldMessage : String :=
  "The only column that can be modified in this FDW is rows_stored_locally"

/-- The field-check loop of `MetadataFdw.update`: for each key of
`oldvalues` in order, evaluate `newvalues[key]` (a missing key raises
`KeyError`), and if the value changed on a key other than
`rows_stored_locally`, log at ERROR level, which raises and aborts. -/
def checkWritableFields (newvalues : List (String × PyVal)) :
    List (String × PyVal) → Except String Unit
  | [] => Except.ok ()
  | (k, v) :: rest =>
    match lookupPy newvalues k with
    | none => Except.error "KeyError"
    | some w =>
      if w ≠ v ∧ k ≠ "rows_stored_locally" then
        Except.error readOnlyFieldMessage
      else checkWritableFields newvalues rest

/-- `MetadataFdw.update`: run the field check; look the named orchestrator
up in the registry (`KeyError` if absent); read the old and new counts;
call the strategy's `fetch_more_rows` with them; store the returned exact
value as the orchestrator's accumulator; write it into
`newvalues["rows_stored_locally"]` and return the new values together
with the updated registry. -/
def update (registry : List (String × FdwEntry))
    (oldvalues newvalues : List (String × PyVal)) :
    Except String (List (String × PyVal) × List (String × FdwEntry)) :=
  match checkWritableFields newvalues oldvalues with
  | Except.error e => Except.error e
  | Except.ok () =>
    match lookupPy oldvalues "name" with
    | some (PyVal.str nm) =>
      match registry.find? (fun e => e.1 = nm) with
      | none => Except.error "KeyError"
      | some entry =>
        match lookupPy oldvalues "rows_stored_locally",
              lookupPy newvalues "rows_stored_locally" with
        | some (PyVal.int oldcount), some (PyVal.int newcount) =>
          let c := entry.2.fetch_more_rows oldcount newcount
          Except.ok
            (setPy newvalues "rows_stored_locally" (PyVal.int c),
             registry.map (fun e =>
               if e.1 = nm then
                 (e.1, { e.2 with rows_stored_locally := c })
               else e))
        | _, _ => Except.error "KeyError"
    | _ => Except.error "KeyError"

end MetadataFdw

/-! ## Concrete fixtures

A selection strategy mirroring rows whose `status` is `active` or
`pending`, and rows crossing that membership boundary. -/

/-- A selection strategy over remote table `t`, mirroring `status` values
`active` and `pending`, with `primary_key` configured. -/
def sActive : SelectionSamplingStrategy :=
  { table_name := "t", column := "status",
    column_values := "active,pending", primary_key := some "id" }

/-- A mirror-eligible row (`status = active`). -/
def rowActive : Row := [("id", some "1"), ("status", some "active")]

/-- The same row after its `status` moves to the ineligible value
`closed`. -/
def rowClosed : Row := [("id", some "1"), ("status", some "closed")]

/-- An equality qualifier on the ineligible value `closed`: not one of
the strategy's selection qualifiers. -/
def qualClosed : Qual := { column := "status", op := "=", value := "closed" }

/-- An equality qualifier on the primary key. -/
def qualId1 : Qual := { column := "id", op := "=", value := "1" }

/-- A passthrough strategy over remote table `t` with `primary_key`
configured. -/
def rs0 : RemoteSamplingStrategy := { table_name := "t", primary_key := some "id" }

/-- A read-path state: the mirror holds the one eligible row (accumulator
1), the remote table holds the `closed` row. -/
def readSt0 : ReadState :=
  { localTable := [rowActive], remoteTable := [rowClosed],
    remoteFetchCount := 0, rows_stored_locally := 1 }

/-- An already-populated mirror, as left by a first `on_open`. -/
def mirrorPopulated : SelectionSamplingStrategy.LocalMirror :=
  { created := true, rows := [rowActive] }

/-! ## Claims -/

/-- C1: the claim states that after every successful insert/update/delete
through the orchestrator, `rows_stored_locally` equals the number of rows
in the local mirror table — in particular across updates that move a row
out of the selection policy's eligible set.  The code violates this: an
update taking a mirrored row from an eligible to an ineligible `status`
runs an in-place UPDATE on the mirror (the row stays, with the ineligible
value) yet returns `-1`, so the accumulator drops to 0 while the mirror
still holds one row. -/
theorem update_breaks_row_count_invariant :
    SamplingFdw.invariant { localTable := [rowActive], rows_stored_locally := 1 } ∧
    SamplingFdw.update sActive
        { localTable := [rowActive], rows_stored_locally := 1 } rowActive rowClosed =
      { localTable := [rowClosed], rows_stored_locally := 0 } ∧
    ¬ SamplingFdw.invariant
        (SamplingFdw.update sActive
          { localTable := [rowActive], rows_stored_locally := 1 } rowActive rowClosed) :=
  ⟨by decide, by decide, by decide⟩

/-- C2: the claim states that `fetch_locally` returns `None` exactly when
no selection qualifier is contained in the query's qualifiers, and that
only then does `execute` fall through to the remote fetch.  The code
violates this: `fetch_locally` is a generator function, so it always
returns a generator (here: always `some`); for a query on the ineligible
value `closed` it returns an empty answer instead of `None`, and
`execute` returns that empty answer without ever consulting the remote
table. -/
theorem fetch_locally_always_answers :
    (∀ (s : SelectionSamplingStrategy) (localRows : List Row)
        (quals : List Qual) (columns : List String),
      (SelectionSamplingStrategy.fetch_locally s localRows quals columns).isSome = true) ∧
    SelectionSamplingStrategy.fetch_locally sActive [rowActive]
        [qualClosed] ["id", "status"] = some [] ∧
    SamplingFdw.execute sActive.toStrategy readSt0 [qualClosed] ["id", "status"] =
      ([], readSt0) :=
  ⟨fun _ _ _ _ => rfl, by decide, by rfl⟩

/-- C3: the claim states the four-case boundary rule for `update_locally`,
with the eligible-to-ineligible case deleting the row from the mirror and
returning minus the rows affected.  The code violates the deletion: in
that case it runs the UPDATE statement on the mirror, so the row remains
(updated in place to its ineligible values) even though `-1` is
returned.  Both eligibility facts and the full result are evaluated
here. -/
theorem update_locally_keeps_ineligible_row :
    SelectionSamplingStrategy.eligible sActive rowActive = true ∧
    SelectionSamplingStrategy.eligible sActive rowClosed = false ∧
    SelectionSamplingStrategy.update_locally sActive [rowActive] rowActive rowClosed =
      ([rowClosed], -1) :=
  ⟨by decide, by decide, by decide⟩

/-- C4: when the strategy's `fetch_locally` declines with "no answer",
`execute` returns exactly the rows `fetch_remotely` alone produces for
the same qualifiers and columns, and runs exactly one physical remote
fetch — `itertools.tee` duplicates the single fetched sequence for
`store_results_locally` without re-executing the remote query. -/
theorem execute_remote_fallthrough_transparent (strat : Strategy)
    (st : ReadState) (quals : List Qual) (columns : List String)
    (h : strat.fetch_locally st.localTable quals columns = none) :
    (SamplingFdw.execute strat st quals columns).1 =
      strat.fetch_remotely st.remoteTable quals columns ∧
    (SamplingFdw.execute strat st quals columns).2.remoteFetchCount =
      st.remoteFetchCount + 1 := by
  unfold SamplingFdw.execute
  rw [h]
  exact ⟨rfl, rfl⟩

/-- Witness for C4: the contract-default strategy (local fetch declines,
remote fetch queries the remote table, store adds nothing) at a concrete
state. -/
theorem execute_remote_fallthrough_transparent_witness :
    (SamplingFdw.execute
        { fetch_locally := fun _ _ _ => none
          fetch_remotely := fetchRows
          store_results_locally := fun lt _ => (lt, 0) }
        readSt0 [] ["id"]).1 = fetchRows readSt0.remoteTable [] ["id"] ∧
    (SamplingFdw.execute
        { fetch_locally := fun _ _ _ => none
          fetch_remotely := fetchRows
          store_results_locally := fun lt _ => (lt, 0) }
        readSt0 [] ["id"]).2.remoteFetchCount = readSt0.remoteFetchCount + 1 :=
  execute_remote_fallthrough_transparent _ readSt0 [] ["id"] rfl

/-- C5 counterexample: the claim states that when `store_results_locally`
fails after a successful remote fetch, the fetched rows are still
returned and the error is only logged.  At a concrete input where the
store step raises, `execute`'s read path instead surfaces the error to
the caller — the fetched rows are not returned (the accumulator is,
indeed, not incremented). -/
theorem store_failure_counterexample :
    SamplingFdw.executeFallibleStore none [rowClosed]
        (fun _ => Except.error "store failed") 5 =
      (Except.error "store failed", 5) := rfl

/-- C5 (amended): if `store_results_locally` raises during the read path
after the remote fetch succeeded, the exception propagates to the caller
(the already-fetched rows are not returned) and the accumulator is not
incremented; nothing catches or logs the error in `execute`. -/
theorem store_failure_propagates_without_increment (remoteRows : List Row)
    (store : List Row → Except String Int) (acc : Int) (e : String)
    (h : store remoteRows = Except.error e) :
    SamplingFdw.executeFallibleStore none remoteRows store acc =
      (Except.error e, acc) := by
  unfold SamplingFdw.executeFallibleStore
  rw [h]

/-- Witness for C5 (amended): a store that raises on a singleton fetch
result. -/
theorem store_failure_propagates_without_increment_witness :
    SamplingFdw.executeFallibleStore none [rowActive]
        (fun _ => Except.error "disk full") 3 =
      (Except.error "disk full", 3) :=
  store_failure_propagates_without_increment [rowActive] _ 3 "disk full" rfl

/-- C6: `on_open` is idempotent — when the local mirror table already
exists, it returns the mirror's current row count and changes nothing, so
two consecutive calls return the same count and leave the mirror's rows
untouched. -/
theorem on_open_idempotent (s : SelectionSamplingStrategy)
    (remoteTable : List Row) (m : SelectionSamplingStrategy.LocalMirror)
    (h : m.created = true) :
    SelectionSamplingStrategy.on_open s remoteTable m = (get_count m.rows, m) ∧
    (SelectionSamplingStrategy.on_open s remoteTable
        (SelectionSamplingStrategy.on_open s remoteTable m).2).1 =
      (SelectionSamplingStrategy.on_open s remoteTable m).1 ∧
    (SelectionSamplingStrategy.on_open s remoteTable
        (SelectionSamplingStrategy.on_open s remoteTable m).2).2 = m := by
  unfold SelectionSamplingStrategy.on_open
  simp [h]

/-- Witness for C6: the populated mirror fixture. -/
theorem on_open_idempotent_witness :
    SelectionSamplingStrategy.on_open sActive [rowClosed] mirrorPopulated =
      (get_count mirrorPopulated.rows, mirrorPopulated) ∧
    (SelectionSamplingStrategy.on_open sActive [rowClosed]
        (SelectionSamplingStrategy.on_open sActive [rowClosed] mirrorPopulated).2).1 =
      (SelectionSamplingStrategy.on_open sActive [rowClosed] mirrorPopulated).1 ∧
    (SelectionSamplingStrategy.on_open sActive [rowClosed]
        (SelectionSamplingStrategy.on_open sActive [rowClosed] mirrorPopulated).2).2 =
      mirrorPopulated :=
  on_open_idempotent sActive [rowClosed] mirrorPopulated rfl

/-- C7: the claim states the passthrough strategy queries the remote
store's configured table on reads and applies writes unconditionally to
it.  The code violates both halves: `fetch_remotely` drops the table-name
argument when calling `execute_fetch_statement`, so every later argument
shifts one slot — at a concrete input the generated statement selects `*`
FROM the rendered qualifier list (not the configured table `t`) with the
column names as WHERE conjuncts — and `insert_remotely`,
`update_remotely` and `delete_remotely` likewise drop the table-name
argument of 3- and 4-parameter staticmethods, so Python raises a
`TypeError` before any remote write happens. -/
theorem remote_strategy_statements_misrouted :
    RemoteSamplingStrategy.fetch_remotely_stmt rs0 [qualId1] ["a", "b"] [] =
      { selectClause := "*", fromClause := "[id = 1]",
        whereConjuncts := ["a", "b"] } ∧
    (RemoteSamplingStrategy.fetch_remotely_stmt rs0 [qualId1] ["a", "b"] []).fromClause ≠
      rs0.table_name ∧
    RemoteSamplingStrategy.insert_remotely rs0 rowActive =
      Except.error
        "TypeError: execute_insert_statement missing 1 required positional argument: values" ∧
    RemoteSamplingStrategy.update_remotely rs0 rowActive rowClosed =
      Except.error
        "TypeError: execute_update_statement missing 1 required positional argument: newvalues" ∧
    RemoteSamplingStrategy.delete_remotely rs0 rowActive =
      Except.error
        "TypeError: execute_delete_statement missing 1 required positional argument: oldvalues" :=
  ⟨by decide, by decide, rfl, rfl, rfl⟩

/-- C8: the claim states that reading `rowid_column` without a configured
`primary_key` fails with a typed `ConfigurationError` aborting the
operation.  The code violates that half: the `log_to_postgres` call omits
the `logging.ERROR` level every other fatal site passes, so the message
goes out at multicorn's default, non-aborting level and the property
returns `None` instead of failing.  The other half holds: with
`primary_key` configured, exactly that column name is returned.  Both
strategies behave identically. -/
theorem rowid_column_logs_without_aborting :
    SelectionSamplingStrategy.rowid_column
        { table_name := "t", column := "status",
          column_values := "active,pending", primary_key := none } =
      ([(SelectionSamplingStrategy.primaryKeyMessage, LogLevel.info)], none) ∧
    RemoteSamplingStrategy.rowid_column { table_name := "t", primary_key := none } =
      ([(SelectionSamplingStrategy.primaryKeyMessage, LogLevel.info)], none) ∧
    SelectionSamplingStrategy.rowid_column sActive = ([], some "id") ∧
    RemoteSamplingStrategy.rowid_column rs0 = ([], some "id") :=
  ⟨rfl, rfl, rfl, rfl⟩

/-- Helper: the field-check loop raises the read-only-field error whenever
some key of `oldvalues` other than `rows_stored_locally` has a different
value in `newvalues` (provided every old key is present in `newvalues`,
so no `KeyError` fires first). -/
theorem checkWritableFields_error_of_changed
    (newvalues : List (String × PyVal)) :
    ∀ oldvalues : List (String × PyVal),
      (∀ kv ∈ oldvalues, ∃ w, lookupPy newvalues kv.1 = some w) →
      (∃ kv ∈ oldvalues,
        lookupPy newvalues kv.1 ≠ some kv.2 ∧ kv.1 ≠ "rows_stored_locally") →
      MetadataFdw.checkWritableFields newvalues oldvalues =
        Except.error MetadataFdw.readOnlyFieldMessage := by
  intro oldvalues
  induction oldvalues with
  | nil =>
    intro _ hex
    simp at hex
  | cons kv rest ih =>
    intro hall hex
    obtain ⟨k, v⟩ := kv
    obtain ⟨w, hw⟩ := hall (k, v) (List.mem_cons_self (k, v) rest)
    have hw' : lookupPy newvalues k = some w := hw
    by_cases hcond : w ≠ v ∧ k ≠ "rows_stored_locally"
    · simp [MetadataFdw.checkWritableFields, hw', hcond]
    · simp only [MetadataFdw.checkWritableFields, hw']
      rw [if_neg hcond]
      apply ih
      · intro kv' hkv'
        exact hall kv' (List.mem_cons_of_mem _ hkv')
      · rcases hex with ⟨kv', hmem, hne, hk⟩
        rcases List.mem_cons.mp hmem with heq | hmem'
        · exfalso
          subst heq
          apply hcond
          refine ⟨?_, hk⟩
          intro hwv
          apply hne
          rw [hw, hwv]
        · exact ⟨kv', hmem', hne, hk⟩

/-- Helper: lookup on a cons cell. -/
theorem lookupPy_cons (x : String × PyVal) (xs : List (String × PyVal))
    (k : String) :
    lookupPy (x :: xs) k = if x.1 = k then some x.2 else lookupPy xs k := by
  by_cases hx : x.1 = k
  · simp [lookupPy, List.find?, hx]
  · simp [lookupPy, List.find?, hx]

/-- Helper: updating the value of a present key, then looking it up. -/
theorem lookupPy_map_set (k : String) (v : PyVal) :
    ∀ m : List (String × PyVal),
      (m.find? (fun kv => kv.1 = k)).isSome = true →
      lookupPy (m.map (fun kv => if kv.1 = k then (k, v) else kv)) k =
        some v := by
  intro m
  induction m with
  | nil => intro h; simp [List.find?] at h
  | cons x xs ih =>
    intro h
    by_cases hx : x.1 = k
    · simp [lookupPy_cons, hx]
    · have h' : (xs.find? (fun kv => kv.1 = k)).isSome = true := by
        simpa [List.find?, hx] using h
      simp [lookupPy_cons, hx, ih h']

/-- Helper: appending an absent key, then looking it up. -/
theorem lookupPy_append_absent (k : String) (v : PyVal) :
    ∀ m : List (String × PyVal),
      m.find? (fun kv => kv.1 = k) = none →
      lookupPy (m ++ [(k, v)]) k = some v := by
  intro m
  induction m with
  | nil => intro _; simp [lookupPy_cons]
  | cons x xs ih =>
    intro h
    have hx : ¬ (x.1 = k) := by
      intro hx
      simp [List.find?, hx] at h
    have h' : xs.find? (fun kv => kv.1 = k) = none := by
      simpa [List.find?, hx] using h
    simp [lookupPy_cons, hx, ih h']

/-- Helper: after Python dict assignment `m[k] = v`, looking `k` up
yields `v`. -/
theorem lookupPy_setPy (m : List (String × PyVal)) (k : String) (v : PyVal) :
    lookupPy (setPy m k v) k = some v := by
  unfold setPy
  by_cases h : (m.find? (fun kv => kv.1 = k)).isSome = true
  · rw [if_pos h]
    exact lookupPy_map_set k v m h
  · rw [if_neg h]
    apply lookupPy_append_absent
    cases heq : m.find? (fun kv => kv.1 = k) with
    | none => rfl
    | some kv =>
      exfalso
      apply h
      rw [heq]
      rfl

/-- C9: the administrative update surface.  An update that changes any
field other than `rows_stored_locally` fails with the read-only-field
error (raised at ERROR level before anything runs); an update changing
only `rows_stored_locally` looks the named mirror up, calls its
strategy's `fetch_more_rows` with the old and new counts, stores the
returned exact value as the mirror's accumulator, and reports it back as
the new `rows_stored_locally`. -/
theorem metadata_update_row_target (registry : List (String × FdwEntry))
    (oldvalues newvalues : List (String × PyVal)) (nm : String)
    (entry : FdwEntry) (oldcount newcount : Int) :
    ((∀ kv ∈ oldvalues, ∃ w, lookupPy newvalues kv.1 = some w) →
      (∃ kv ∈ oldvalues,
        lookupPy newvalues kv.1 ≠ some kv.2 ∧ kv.1 ≠ "rows_stored_locally") →
      MetadataFdw.update registry oldvalues newvalues =
        Except.error MetadataFdw.readOnlyFieldMessage) ∧
    (MetadataFdw.checkWritableFields newvalues oldvalues = Except.ok () →
      lookupPy oldvalues "name" = some (PyVal.str nm) →
      registry.find? (fun e => e.1 = nm) = some (nm, entry) →
      lookupPy oldvalues "rows_stored_locally" = some (PyVal.int oldcount) →
      lookupPy newvalues "rows_stored_locally" = some (PyVal.int newcount) →
      MetadataFdw.update registry oldvalues newvalues =
        Except.ok
          (setPy newvalues "rows_stored_locally"
            (PyVal.int (entry.fetch_more_rows oldcount newcount)),
           registry.map (fun e =>
             if e.1 = nm then
               (e.1,
                { e.2 with
                  rows_stored_locally := entry.fetch_more_rows oldcount newcount })
             else e)) ∧
      lookupPy
          (setPy newvalues "rows_stored_locally"
            (PyVal.int (entry.fetch_more_rows oldcount newcount)))
          "rows_stored_locally" =
        some (PyVal.int (entry.fetch_more_rows oldcount newcount))) := by
  constructor
  · intro hall hex
    unfold MetadataFdw.update
    rw [checkWritableFields_error_of_changed newvalues oldvalues hall hex]
  · intro hchk hnm hfind hold hnew
    refine ⟨?_, lookupPy_setPy newvalues _ _⟩
    simp only [MetadataFdw.update, hchk, hnm, hfind, hold, hnew]

/-- Registry entry used by the C9 witness: accumulator 5, with a
`fetch_more_rows` that reaches the requested target exactly. -/
def entryW : FdwEntry :=
  { rows_stored_locally := 5, fetch_more_rows := fun _ newcount => newcount }

/-- A registry with one mirror named `my_fdw`. -/
def regW : List (String × FdwEntry) := [("my_fdw", entryW)]

/-- The metadata row of `my_fdw` as the administrative surface lists
it. -/
def oldW : List (String × PyVal) :=
  [("name", PyVal.str "my_fdw"), ("table_name", PyVal.str "t"),
   ("rows_stored_locally", PyVal.int 5)]

/-- An update attempt that changes the read-only `table_name` field. -/
def newBadW : List (String × PyVal) :=
  [("name", PyVal.str "my_fdw"), ("table_name", PyVal.str "u"),
   ("rows_stored_locally", PyVal.int 5)]

/-- An update attempt that changes only `rows_stored_locally`, to 10. -/
def newGoodW : List (String × PyVal) :=
  [("name", PyVal.str "my_fdw"), ("table_name", PyVal.str "t"),
   ("rows_stored_locally", PyVal.int 10)]

/-- Witness for C9: changing `table_name` fails with the read-only-field
error; raising the row count to 10 returns values carrying
`rows_stored_locally = 10` and sets the registry entry's accumulator to
the value `fetch_more_rows` returned. -/
theorem metadata_update_row_target_witness :
    MetadataFdw.update regW oldW newBadW =
      Except.error MetadataFdw.readOnlyFieldMessage ∧
    MetadataFdw.update regW oldW newGoodW =
      Except.ok
        (setPy newGoodW "rows_stored_locally"
          (PyVal.int (entryW.fetch_more_rows 5 10)),
         regW.map (fun e =>
           if e.1 = "my_fdw" then
             (e.1, { e.2 with rows_stored_locally := entryW.fetch_more_rows 5 10 })
           else e)) ∧
    lookupPy
        (setPy newGoodW "rows_stored_locally"
          (PyVal.int (entryW.fetch_more_rows 5 10)))
        "rows_stored_locally" = some (PyVal.int 10) := by
  have hbad := (metadata_update_row_target regW oldW newBadW "my_fdw" entryW 5 5).1
  have hgood := (metadata_update_row_target regW oldW newGoodW "my_fdw" entryW 5 10).2
  refine ⟨?_, ?_, ?_⟩
  · apply hbad
    · intro kv hkv
      fin_cases hkv <;> exact ⟨_, rfl⟩
    · exact ⟨("table_name", PyVal.str "t"), by decide, by decide, by decide⟩
  · exact (hgood rfl rfl rfl rfl rfl).1
  · exact (hgood rfl rfl rfl rfl rfl).2

/-- C10: the INSERT statement built by `execute_insert_statement` (used
by the selection strategy's `insert_locally` and by `insert_remotely`)
names exactly the columns whose value is not `None` — a column bound to
`None` is omitted from the column list and the bound parameters, the two
lists stay aligned, and every bound parameter is non-`None`. -/
theorem insert_statement_omits_none_columns (tableName : String)
    (values : Values) (c : String) :
    (c ∈ (execute_insert_statement_stmt tableName values).columns ↔
      ∃ v, (c, some v) ∈ values) ∧
    (execute_insert_statement_stmt tableName values).params.all
      (fun p => p.isSome) = true ∧
    (execute_insert_statement_stmt tableName values).params.length =
      (execute_insert_statement_stmt tableName values).columns.length := by
  refine ⟨?_, ?_, ?_⟩
  · simp only [execute_insert_statement_stmt, List.mem_map, List.mem_filter]
    constructor
    · rintro ⟨⟨k, ov⟩, ⟨hmem, hsome⟩, rfl⟩
      rcases ov with _ | v
      · simp at hsome
      · exact ⟨v, hmem⟩
    · rintro ⟨v, hmem⟩
      exact ⟨(c, some v), ⟨hmem, rfl⟩, rfl⟩
  · simp only [execute_insert_statement_stmt, List.all_eq_true, List.mem_map,
      List.mem_filter]
    rintro p ⟨⟨k, ov⟩, ⟨hmem, hsome⟩, rfl⟩
    exact hsome
  · simp [execute_insert_statement_stmt]

end SamplingFdwModel
